import Mathlib

/-!
Verification development for `src/tool/analyze_common.h` of ninja-scan-light.

Two components are embedded:
* the N0 packet encoder `NAVData::encode_N0` (lines 393-424), together with
  the angle-conversion helpers `deg2rad` / `rad2deg` (lines 58-67);
* the stream-specifier resolver `GlobalOptions::spec2istream` /
  `spec2ostream` (lines 134-212) with its channel pool
  `iostream_pool` (lines 88-89) and `set_baudrate` (lines 120-126).

Modelling conventions:
* `float_sylph_t` (a C++ `double`) is embedded as `ℚ` with exact arithmetic;
  the double constant `M_PI` is embedded as the exact rational value of the
  IEEE-754 double nearest to π, so `rad2deg`/`deg2rad` are the exact-field
  versions of the source expressions.
* C++ float-to-integer conversion truncates toward zero; the narrowing into
  the fixed-width packet fields is embedded as two's-complement reduction
  (`wrap16` / `wrap32`), matching the byte image the encoder stores.
* C strings are embedded as `List Char`; the address a `const char *`
  points to is a `Nat`, and a memory map `mem : Nat → List Char` gives each
  address its current contents.  The pool `std::map<const char *, ...>`
  compares raw pointer values, so it is embedded as an association list
  keyed by the address.
-/

namespace NinjaScan

/-- M_PI as the exact value of the IEEE-754 double closest to π,
the constant used by `deg2rad`/`rad2deg` in the source (lines 59, 67). -/
def M_PI : ℚ := 884279719003555 / 281474976710656

/-- deg2rad (line 59): `degrees * M_PI / 180`. -/
def deg2rad (degrees : ℚ) : ℚ := degrees * M_PI / 180

/-- rad2deg (line 67): `radians * 180 / M_PI`. -/
def rad2deg (radians : ℚ) : ℚ := radians * 180 / M_PI

/-- ratTrunc embeds C++ float→integer conversion: truncation toward zero
(`Int.div` is truncated division, and `q.den` is positive). -/
def ratTrunc (q : ℚ) : Int := Int.tdiv q.num (q.den : Int)

/-- wrap32 embeds narrowing a truncated value into a 32-bit field
(`v_u32_t` / `v_s32_t`, lines 396-397): the unsigned value of the
two's-complement byte image. -/
def wrap32 (z : Int) : Nat := (z % 4294967296).toNat

/-- wrap16 embeds narrowing a truncated value into a 16-bit field
(`v_s16_t`, line 398). -/
def wrap16 (z : Int) : Nat := (z % 65536).toNat

/-- le32 gives the little-endian byte image of a 32-bit value, as stored by
`le_char4_2_num<v_u32_t/v_s32_t>` (lines 414-417). -/
def le32 (v : Nat) : List Nat :=
  [v % 256, v / 256 % 256, v / 65536 % 256, v / 16777216 % 256]

/-- le16 gives the little-endian byte image of a 16-bit value, as stored by
`le_char4_2_num<v_s16_t>` (lines 418-423). -/
def le16 (v : Nat) : List Nat := [v % 256, v / 256 % 256]

/-- NAVData view (lines 328-340): the pure virtual accessors of the
navigation state, one `ℚ` field per accessor, in source order. -/
structure NAVData where
  longitude : ℚ
  latitude : ℚ
  height : ℚ
  v_north : ℚ
  v_east : ℚ
  v_down : ℚ
  heading : ℚ
  euler_phi : ℚ
  euler_theta : ℚ
  euler_psi : ℚ
  azimuth : ℚ
deriving DecidableEq

/-- encode_N0 (lines 393-424).  The 32-byte buffer is produced as a list of
byte values.  Field computation follows the source lines 400-409; the
little-endian stores follow lines 410-423.  Little-endian storage of the
multi-byte fields is via `le_char4_2_num` of `util/endian.h`, which is not
under src/; modelled from the spec: "all multi-byte fields are
little-endian regardless of host byte order". -/
def encode_N0 (itow : ℚ) (nav : NAVData) : List Nat :=
  let t := wrap32 (ratTrunc (itow * 1000))
  let lat := wrap32 (ratTrunc (rad2deg nav.latitude * 10000000))
  let lng := wrap32 (ratTrunc (rad2deg nav.longitude * 10000000))
  let h := wrap32 (ratTrunc (nav.height * 10000))
  let v_n := wrap16 (ratTrunc (nav.v_north * 100))
  let v_e := wrap16 (ratTrunc (nav.v_east * 100))
  let v_d := wrap16 (ratTrunc (nav.v_down * 100))
  let psi := wrap16 (ratTrunc (rad2deg nav.heading * 100))
  let theta := wrap16 (ratTrunc (rad2deg nav.euler_theta * 100))
  let phi := wrap16 (ratTrunc (rad2deg nav.euler_phi * 100))
  ['N'.toNat, 0, 0, 0] ++ le32 t ++ le32 lat ++ le32 lng ++ le32 h ++
    le16 v_n ++ le16 v_e ++ le16 v_d ++ le16 psi ++ le16 theta ++ le16 phi

/-- leRead2 reads a 2-byte little-endian field of the buffer at a byte offset. -/
def leRead2 (buf : List Nat) (off : Nat) : Nat :=
  buf.getD off 0 + 256 * buf.getD (off + 1) 0

/-- leRead4 reads a 4-byte little-endian field of the buffer at a byte offset. -/
def leRead4 (buf : List Nat) (off : Nat) : Nat :=
  buf.getD off 0 + 256 * buf.getD (off + 1) 0 +
    65536 * buf.getD (off + 2) 0 + 16777216 * buf.getD (off + 3) 0

/-- toSigned16 decodes a 16-bit field value as two's-complement signed. -/
def toSigned16 (v : Nat) : Int := if v < 32768 then (v : Int) else (v : Int) - 65536

/-- toSigned32 decodes a 32-bit field value as two's-complement signed. -/
def toSigned32 (v : Nat) : Int :=
  if v < 2147483648 then (v : Int) else (v : Int) - 4294967296

/-!
Specifier resolver and channel pool (`GlobalOptions`, lines 70-212).
-/

/-- Channel embeds the stream objects the resolver can hand out: the process
standard streams (lines 144, 186), a `ComportStream` (lines 155, 197) or a
`std::fstream` (lines 166, 208).  `id` is an allocation stamp: each `new`
expression yields a fresh one, so two channels are the same C++ object
exactly when they are equal here.  `ok` on a file channel records whether
the underlying open succeeded (`fstream::fail`, line 167). -/
inductive Channel where
  | stdIn : Channel
  | stdOut : Channel
  | comport (name : List Char) (id : Nat) : Channel
  | fileIn (name : List Char) (ok : Bool) (id : Nat) : Channel
  | fileOut (name : List Char) (ok : Bool) (id : Nat) : Channel
deriving DecidableEq

/-- Res is the outcome of one resolution: the returned stream reference, or
process termination via `exit` with the given code (lines 124, 169). -/
inductive Res where
  | ok (ch : Channel) : Res
  | fatal (code : Int) : Res
deriving DecidableEq

/-- PoolSt is the mutable state the resolver touches: `iostream_pool`
(line 89, a `std::map<const char *, std::iostream *>`, so keyed by the raw
pointer value), the contents of the C strings the `const char *` arguments
point to, an allocation counter for `new`-ed streams, and the diagnostics
written to `std::cerr` (most recent first). -/
structure PoolSt where
  pool : List (Nat × Channel)
  mem : Nat → List Char
  nextId : Nat
  errlog : List (List Char)

/-- pushErr appends one diagnostic to the `std::cerr` log. -/
def pushErr (s : PoolSt) (msg : List Char) : PoolSt :=
  { s with errlog := msg :: s.errlog }

/-- poolFind embeds `iostream_pool.find(spec)` (lines 154, 196): lookup by
the raw pointer value of the key. -/
def poolFind (pool : List (Nat × Channel)) (p : Nat) : Option Channel :=
  match pool with
  | [] => none
  | e :: t => if e.1 = p then some e.2 else poolFind t p

/-- poolSet embeds `iostream_pool[spec] = ...` (lines 157, 172, 199, 210):
`std::map::operator[]` inserts at the pointer key, replacing the value of
an existing entry. -/
def poolSet (pool : List (Nat × Channel)) (p : Nat) (c : Channel) : List (Nat × Channel) :=
  pool.filter (fun e => e.1 != p) ++ [(p, c)]

/-- Env collects the behavior of collaborators that are outside src/.
Modelled from the spec: `ComportStream::buffer().set_baudrate`
(util/comstream.h) returns the rate actually configured on the device, so a
rate is "outside the device's supported set" when the returned rate differs
from the requested one; `canOpenIn`/`canOpenOut` tell whether opening the
named file in binary mode for reading/writing succeeds ("missing/unopenable
input file"). -/
structure Env where
  devBaud : List Char → Int → Int
  canOpenIn : List Char → Bool
  canOpenOut : List Char → Bool

/-- digitsVal accumulates the leading decimal digits of a character list,
stopping at the first non-digit. -/
def digitsVal : List Char → Nat → Nat
  | [], acc => acc
  | c :: cs, acc =>
    if c.isDigit then digitsVal cs (acc * 10 + (c.toNat - 48)) else acc

/-- atoi embeds C `atoi` (line 121): skip leading spaces, optional sign,
then the leading decimal digits. -/
def atoi (s : List Char) : Int :=
  match s.dropWhile (fun c => c = ' ') with
  | '+' :: r => (digitsVal r 0 : Int)
  | '-' :: r => -(digitsVal r 0 : Int)
  | r => (digitsVal r 0 : Int)

/-- COMPORT_PFX embeds the COMPORT_PREFIX macro (lines 128-132) on the
non-Windows branch: the device-name prefix `"/dev/tty"`. -/
def COMPORT_PFX : List Char := ['/', 'd', 'e', 'v', '/', 't', 't', 'y']

/-- dash is the standard-stream token `"-"` (lines 138, 180). -/
def dash : List Char := ['-']

/-- cinMsg is the diagnostic of line 140. -/
def cinMsg : List Char := "[std::cin]".toList

/-- coutMsg is the diagnostic of line 182. -/
def coutMsg : List Char := "[std::cout]".toList

/-- unsupportedMsg is the diagnostic of line 123. -/
def unsupportedMsg : List Char := " => Unsupported baudrate!!".toList

/-- notFoundMsg is the diagnostic of line 168. -/
def notFoundMsg : List Char := " => File not found!!".toList

/-- set_baudrate (lines 120-126): request `atoi(baudrate_spec)` on the
device; when the device reports a different configured rate, print the
diagnostic and `exit(-1)` (the caller turns the `false` into `Res.fatal`).
The device is identified by its name string. -/
def set_baudrate (env : Env) (name baudrate_arg : List Char) (s : PoolSt) : Bool × PoolSt :=
  let baudrate := atoi baudrate_arg
  if baudrate ≠ env.devBaud name baudrate then
    (false, pushErr s unsupportedMsg)
  else
    (true, s)

/-- comport_resolve embeds the serial branch shared verbatim by
`spec2istream` (lines 145-162) and `spec2ostream` (lines 187-204):
print the specifier (lines 146, 188); split a `:baudrate` suffix by
overwriting the `':'` with `'\0'` in the caller's buffer (lines 149-153,
191-195), so the string at `p` is truncated in place; look the raw pointer
up in the pool (lines 154, 196); on a miss, construct a `ComportStream` on
the truncated name, apply the baud rate (fatal on an unsupported one),
pool it and return it (lines 155-158, 197-200); on a hit, return the
pooled stream, ignoring any baud suffix (lines 159-161, 201-203). -/
def comport_resolve (env : Env) (p : Nat) (s : PoolSt) : Res × PoolSt :=
  let spec := s.mem p
  let s1 := pushErr s spec
  let name := spec.takeWhile (fun c => c != ':')
  let s2 := if ':' ∈ spec then
      { s1 with mem := fun q => if q = p then name else s1.mem q }
    else s1
  match poolFind s2.pool p with
  | some ch => (Res.ok ch, s2)
  | none =>
    let com := Channel.comport name s2.nextId
    let s3 := { s2 with nextId := s2.nextId + 1 }
    if ':' ∈ spec then
      let bspec := (spec.dropWhile (fun c => c != ':')).tail
      match set_baudrate env name bspec s3 with
      | (false, s4) => (Res.fatal (-1), s4)
      | (true, s4) => (Res.ok com, { s4 with pool := poolSet s4.pool p com })
    else
      (Res.ok com, { s3 with pool := poolSet s3.pool p com })

/-- fstream_resolve_in embeds the file branch of `spec2istream`
(lines 165-173): print the specifier, open the file for binary reading
(`new std::fstream`), and on failure print the diagnostic and `exit(-1)`;
otherwise pool the stream at the pointer key (replacing any previous entry)
and return it. -/
def fstream_resolve_in (env : Env) (p : Nat) (s : PoolSt) : Res × PoolSt :=
  let spec := s.mem p
  let s1 := pushErr s spec
  let ok := env.canOpenIn spec
  let fin := Channel.fileIn spec ok s1.nextId
  let s2 := { s1 with nextId := s1.nextId + 1 }
  if ok = false then
    (Res.fatal (-1), pushErr s2 notFoundMsg)
  else
    (Res.ok fin, { s2 with pool := poolSet s2.pool p fin })

/-- fstream_resolve_out embeds the file branch of `spec2ostream`
(lines 207-211): print the specifier, open the file for binary writing
(`new std::fstream`), pool the stream at the pointer key and return it;
unlike the input direction there is no failure check. -/
def fstream_resolve_out (env : Env) (p : Nat) (s : PoolSt) : Res × PoolSt :=
  let spec := s.mem p
  let s1 := pushErr s spec
  let fout := Channel.fileOut spec (env.canOpenOut spec) s1.nextId
  let s2 := { s1 with nextId := s1.nextId + 1 }
  (Res.ok fout, { s2 with pool := poolSet s2.pool p fout })

/-- spec2istream (lines 134-174).  `p` is the address of the caller's
specifier string.  Unless `force_fstream` is set: the token `"-"` resolves
to `std::cin` without touching the pool (lines 137-144); a specifier
beginning with the serial-device name prefix resolves through the serial
branch (lines 145-162).  Everything else (and everything when
`force_fstream` is set) resolves as a binary input file (lines 165-173). -/
def spec2istream (env : Env) (p : Nat) (force_fstream : Bool) (s : PoolSt) : Res × PoolSt :=
  if force_fstream = false then
    if s.mem p = dash then
      (Res.ok Channel.stdIn, pushErr s cinMsg)
    else if COMPORT_PFX.isPrefixOf (s.mem p) then
      comport_resolve env p s
    else
      fstream_resolve_in env p s
  else
    fstream_resolve_in env p s

/-- spec2ostream (lines 176-212), the output-direction twin of
`spec2istream`: `"-"` resolves to `std::cout` (lines 179-186); the serial
branch is identical (lines 187-204); the file branch opens for binary
writing with no failure check (lines 207-211). -/
def spec2ostream (env : Env) (p : Nat) (force_fstream : Bool) (s : PoolSt) : Res × PoolSt :=
  if force_fstream = false then
    if s.mem p = dash then
      (Res.ok Channel.stdOut, pushErr s coutMsg)
    else if COMPORT_PFX.isPrefixOf (s.mem p) then
      comport_resolve env p s
    else
      fstream_resolve_out env p s
  else
    fstream_resolve_out env p s

/-!
Helper lemmas about the pool and the colon-splitting string operations.
-/

/-- poolFind after poolSet at the same pointer key yields the stored channel. -/
theorem poolFind_poolSet_self (pool : List (Nat × Channel)) (p : Nat) (c : Channel) :
    poolFind (poolSet pool p c) p = some c := by
  induction pool with
  | nil => simp [poolSet, poolFind]
  | cons e t ih =>
    by_cases h : e.1 = p
    · simpa [poolSet, List.filter_cons, h] using ih
    · simp only [poolSet, List.filter_cons] at ih ⊢
      simp [h, poolFind, ih]

/-- poolFind at a different pointer key is unaffected by poolSet. -/
theorem poolFind_poolSet_ne (pool : List (Nat × Channel)) (p q : Nat) (c : Channel)
    (h : q ≠ p) : poolFind (poolSet pool p c) q = poolFind pool q := by
  induction pool with
  | nil => simp [poolSet, poolFind, Ne.symm h]
  | cons e t ih =>
    by_cases he : e.1 = p
    · subst he
      simp only [poolSet, List.filter_cons] at ih ⊢
      simp [poolFind, Ne.symm h, ih]
    · simp only [poolSet, List.filter_cons] at ih ⊢
      by_cases hq : e.1 = q
      · simp [he, hq, h, poolFind]
      · simp [he, hq, poolFind, ih]

/-- takeWhile over a colon-free list keeps the whole list. -/
theorem takeWhile_no_colon (l : List Char) (h : ':' ∉ l) :
    l.takeWhile (fun c => c != ':') = l := by
  induction l with
  | nil => rfl
  | cons c t ih =>
    simp only [List.mem_cons, not_or] at h
    simp [List.takeWhile_cons, bne_iff_ne, Ne.symm h.1, ih h.2]

/-- takeWhile up to the first colon yields the part before it. -/
theorem takeWhile_append_colon (name rest : List Char) (h : ':' ∉ name) :
    (name ++ ':' :: rest).takeWhile (fun c => c != ':') = name := by
  induction name with
  | nil => simp [List.takeWhile_cons]
  | cons c t ih =>
    simp only [List.mem_cons, not_or] at h
    simp [List.takeWhile_cons, bne_iff_ne, Ne.symm h.1, ih h.2]

/-- dropWhile to the first colon, then tail, yields the part after it. -/
theorem dropWhile_append_colon (name rest : List Char) (h : ':' ∉ name) :
    ((name ++ ':' :: rest).dropWhile (fun c => c != ':')).tail = rest := by
  induction name with
  | nil => simp [List.dropWhile_cons]
  | cons c t ih =>
    simp only [List.mem_cons, not_or] at h
    simp [List.dropWhile_cons, bne_iff_ne, Ne.symm h.1, ih h.2]

/-- Specifiers carrying the serial-device name prefix are not the
standard-stream token. -/
theorem comport_ne_dash (l : List Char) (h : COMPORT_PFX.isPrefixOf l = true) :
    l ≠ dash := by
  intro e
  subst e
  revert h
  decide

/-- wrap16 always lies below 2^16. -/
theorem wrap16_lt (z : Int) : wrap16 z < 65536 := by
  unfold wrap16
  omega

/-- wrap32 always lies below 2^32. -/
theorem wrap32_lt (z : Int) : wrap32 z < 4294967296 := by
  unfold wrap32
  omega

/-!
Shared concrete material for witnesses and counterexamples.
-/

/-- envAccept describes collaborators that always cooperate: the device
configures exactly the requested baud rate and every file open succeeds. -/
def envAccept : Env := ⟨fun _ b => b, fun _ => true, fun _ => true⟩

/-- envRefuse describes collaborators that never cooperate: the device
always configures rate 0 and every file open fails. -/
def envRefuse : Env := ⟨fun _ _ => 0, fun _ => false, fun _ => false⟩

/-- dataBin is a plain file-path specifier. -/
def dataBin : List Char := "data.bin".toList

/-- ttyS0 is a serial-device specifier with no baud-rate suffix. -/
def ttyS0 : List Char := "/dev/ttyS0".toList

/-- baud57600 is the digits of a baud-rate suffix. -/
def baud57600 : List Char := "57600".toList

/-- sFile is a fresh state whose every string address holds `data.bin`. -/
def sFile : PoolSt := ⟨[], fun _ => dataBin, 0, []⟩

/-- sCom is a fresh state whose every string address holds `/dev/ttyS0`. -/
def sCom : PoolSt := ⟨[], fun _ => ttyS0, 0, []⟩

/-- sComBaud is a fresh state whose every string address holds
`/dev/ttyS0:57600`. -/
def sComBaud : PoolSt := ⟨[], fun _ => ttyS0 ++ ':' :: baud57600, 0, []⟩

/-- sDash is a state with prior pool activity (a pooled serial channel at
address 7) whose every string address holds `-`. -/
def sDash : PoolSt := ⟨[(7, Channel.comport ttyS0 3)], fun _ => dash, 4, []⟩

/-- navC3 is the navigation state of the round-trip scale check: latitude
10° and longitude −20° supplied in radians, height 100 m, velocity-north
1.23 m/s, heading 45° supplied in radians. -/
def navC3 : NAVData :=
  NAVData.mk (deg2rad (-20)) (deg2rad 10) 100 (123/100) 0 0 (deg2rad 45) 0 0 0 0

/-- navOver is a navigation state whose scaled velocity-north, 40017,
exceeds the int16 range, and whose scaled velocity-east, 199.9, is not an
integer. -/
def navOver : NAVData :=
  NAVData.mk 0 0 0 (40017/100) (1999/1000) 0 0 0 0 0 0

/-!
The claims.
-/

/-- C1, counterexample: resolving the very same file specifier (same string,
even the same pointer) twice does NOT return the channel already held in
the pool — the second resolution constructs a fresh `std::fstream`
(allocation stamp 1, counter advanced to 2) and overwrites the pool entry,
so two live channels for one specifier string exist.  The source consults
the pool only in the serial branch (lines 154-161); the file branch
(lines 165-173) unconditionally opens anew. -/
theorem file_respec_reopens_channel :
    (spec2istream envAccept 0 false sFile).1 = Res.ok (Channel.fileIn dataBin true 0) ∧
    (spec2istream envAccept 0 false (spec2istream envAccept 0 false sFile).2).1 =
      Res.ok (Channel.fileIn dataBin true 1) ∧
    (spec2istream envAccept 0 false (spec2istream envAccept 0 false sFile).2).1 ≠
      (spec2istream envAccept 0 false sFile).1 ∧
    (spec2istream envAccept 0 false (spec2istream envAccept 0 false sFile).2).2.nextId = 2 := by
  decide

/-- C1, amended: pool reuse holds for serial-device specifiers resolved
through the same pointer: the first resolution constructs and pools one
channel, a second resolution of the same pointer returns that identical
channel, constructs nothing new (the allocation counter stays at
`s.nextId + 1`) and leaves the pool unchanged. -/
theorem serial_same_ptr_reuse (env : Env) (p : Nat) (s : PoolSt) (spec : List Char)
    (h1 : s.mem p = spec)
    (h2 : COMPORT_PFX.isPrefixOf spec = true)
    (h3 : ':' ∉ spec)
    (h4 : poolFind s.pool p = none) :
    (spec2istream env p false s).1 = Res.ok (Channel.comport spec s.nextId) ∧
    (spec2istream env p false (spec2istream env p false s).2).1 =
      Res.ok (Channel.comport spec s.nextId) ∧
    (spec2istream env p false (spec2istream env p false s).2).2.nextId = s.nextId + 1 ∧
    (spec2istream env p false (spec2istream env p false s).2).2.pool =
      (spec2istream env p false s).2.pool := by
  have hd := comport_ne_dash _ h2
  have ht := takeWhile_no_colon spec h3
  have hfirst : spec2istream env p false s =
      (Res.ok (Channel.comport spec s.nextId),
        { pool := poolSet s.pool p (Channel.comport spec s.nextId),
          mem := s.mem, nextId := s.nextId + 1,
          errlog := spec :: s.errlog }) := by
    simp [spec2istream, h1, h2, hd, comport_resolve, h3, ht, pushErr, h4]
  have hfind := poolFind_poolSet_self s.pool p (Channel.comport spec s.nextId)
  refine ⟨by rw [hfirst], ?_, ?_, ?_⟩ <;>
  · rw [hfirst]
    simp [spec2istream, h1, h2, hd, comport_resolve, h3, ht, pushErr, hfind]

/-- C1, witness for the amended statement, on a fresh pool with the
specifier `/dev/ttyS0` at address 0. -/
theorem serial_same_ptr_reuse_witness :
    (spec2istream envAccept 0 false sCom).1 = Res.ok (Channel.comport ttyS0 0) ∧
    (spec2istream envAccept 0 false (spec2istream envAccept 0 false sCom).2).1 =
      Res.ok (Channel.comport ttyS0 0) ∧
    (spec2istream envAccept 0 false (spec2istream envAccept 0 false sCom).2).2.nextId = 1 ∧
    (spec2istream envAccept 0 false (spec2istream envAccept 0 false sCom).2).2.pool =
      (spec2istream envAccept 0 false sCom).2.pool :=
  serial_same_ptr_reuse envAccept 0 sCom ttyS0 rfl (by decide) (by decide) rfl

/-- C2: for every time-of-week value and every navigation state view, the
encoder fills exactly 32 bytes, byte 0 is the literal `'N'` and bytes 1-3
are zero. -/
theorem encode_N0_layout_header (itow : ℚ) (nav : NAVData) :
    (encode_N0 itow nav).length = 32 ∧
    (encode_N0 itow nav).getD 0 0 = 'N'.toNat ∧
    (encode_N0 itow nav).getD 1 0 = 0 ∧
    (encode_N0 itow nav).getD 2 0 = 0 ∧
    (encode_N0 itow nav).getD 3 0 = 0 :=
  ⟨rfl, rfl, rfl, rfl, rfl⟩

/-- C3: the fixed scale factors with radians-to-degrees conversion, read
back little-endian at the fixed offsets: time-of-week 12.345 s gives
uint32 12345 at offset 4; latitude 10° (supplied in radians) gives
100000000 at offset 8; longitude −20° gives −200000000 at offset 12;
height 100 m gives 1000000 at offset 16; velocity-north 1.23 m/s gives
int16 123 at offset 20; heading 45° gives 4500 at offset 26. -/
theorem encode_N0_scale_values :
    leRead4 (encode_N0 (12345/1000) navC3) 4 = 12345 ∧
    toSigned32 (leRead4 (encode_N0 (12345/1000) navC3) 8) = 100000000 ∧
    toSigned32 (leRead4 (encode_N0 (12345/1000) navC3) 12) = -200000000 ∧
    toSigned32 (leRead4 (encode_N0 (12345/1000) navC3) 16) = 1000000 ∧
    toSigned16 (leRead2 (encode_N0 (12345/1000) navC3) 20) = 123 ∧
    toSigned16 (leRead2 (encode_N0 (12345/1000) navC3) 26) = 4500 := by
  norm_num [navC3, encode_N0, deg2rad, rad2deg, M_PI, ratTrunc, wrap32, wrap16, le32, le16,
    leRead4, leRead2, toSigned32, toSigned16]
  decide

/-- C4: the conversion into each field truncates toward zero (`ratTrunc`)
and reduces modulo the field width (`wrap16`/`wrap32`) with no error path:
for every input the encoder returns a full 32-byte packet whose
velocity-north field is exactly `wrap16 (ratTrunc (v_north * 100))` and
whose height field is exactly `wrap32 (ratTrunc (height * 10000))`; in
particular velocity-north 400.17 m/s (scaled magnitude 40017 ≥ 2^15) is
stored wrapped as int16 −25519, and velocity-east 1.999 m/s is stored
truncated (not rounded) as 199. -/
theorem encode_N0_trunc_wrap :
    (∀ (itow : ℚ) (nav : NAVData),
      (encode_N0 itow nav).length = 32 ∧
      leRead2 (encode_N0 itow nav) 20 = wrap16 (ratTrunc (nav.v_north * 100)) ∧
      leRead4 (encode_N0 itow nav) 16 = wrap32 (ratTrunc (nav.height * 10000))) ∧
    toSigned16 (leRead2 (encode_N0 0 navOver) 20) = -25519 ∧
    toSigned16 (leRead2 (encode_N0 0 navOver) 22) = 199 := by
  refine ⟨fun itow nav => ⟨rfl, ?_, ?_⟩, ?_, ?_⟩
  · have h := wrap16_lt (ratTrunc (nav.v_north * 100))
    simp only [encode_N0, le32, le16, leRead2, List.cons_append, List.nil_append,
      List.getD_cons_succ, List.getD_cons_zero]
    omega
  · have h := wrap32_lt (ratTrunc (nav.height * 10000))
    simp only [encode_N0, le32, le16, leRead4, List.cons_append, List.nil_append,
      List.getD_cons_succ, List.getD_cons_zero]
    omega
  · norm_num [navOver, encode_N0, rad2deg, M_PI, ratTrunc, wrap32, wrap16, le32, le16,
      leRead2, toSigned16]
    decide
  · norm_num [navOver, encode_N0, rad2deg, M_PI, ratTrunc, wrap32, wrap16, le32, le16,
      leRead2, toSigned16]
    decide

/-- C5: on a first resolution of a serial specifier `name:baud` whose
requested rate the device does not support (the configured rate differs
from the requested one), both resolution directions write the diagnostic
and terminate the process via `exit(-1)` — a non-zero status — and neither
returns a channel. -/
theorem unsupported_baudrate_fatal (env : Env) (p : Nat) (s : PoolSt) (name rest : List Char)
    (h1 : s.mem p = name ++ ':' :: rest)
    (h2 : COMPORT_PFX.isPrefixOf (name ++ ':' :: rest) = true)
    (h3 : ':' ∉ name)
    (h4 : poolFind s.pool p = none)
    (h5 : atoi rest ≠ env.devBaud name (atoi rest)) :
    (spec2istream env p false s).1 = Res.fatal (-1) ∧
    (spec2istream env p false s).2.errlog.head? = some unsupportedMsg ∧
    (∀ ch, (spec2istream env p false s).1 ≠ Res.ok ch) ∧
    (spec2ostream env p false s).1 = Res.fatal (-1) ∧
    (spec2ostream env p false s).2.errlog.head? = some unsupportedMsg := by
  have hd := comport_ne_dash _ h2
  have ht := takeWhile_append_colon name rest h3
  have hb := dropWhile_append_colon name rest h3
  have hc : ':' ∈ name ++ ':' :: rest := by simp
  refine ⟨?_, ?_, ?_, ?_, ?_⟩ <;>
  · simp [spec2istream, spec2ostream, h1, h2, hd, comport_resolve, hc, ht, hb,
      pushErr, h4, set_baudrate, h5]

/-- C5, witness: `/dev/ttyS0:57600` against a device that configures 0. -/
theorem unsupported_baudrate_fatal_witness :
    (spec2istream envRefuse 0 false sComBaud).1 = Res.fatal (-1) ∧
    (spec2istream envRefuse 0 false sComBaud).2.errlog.head? = some unsupportedMsg ∧
    (∀ ch, (spec2istream envRefuse 0 false sComBaud).1 ≠ Res.ok ch) ∧
    (spec2ostream envRefuse 0 false sComBaud).1 = Res.fatal (-1) ∧
    (spec2ostream envRefuse 0 false sComBaud).2.errlog.head? = some unsupportedMsg :=
  unsupported_baudrate_fatal envRefuse 0 sComBaud ttyS0 baud57600 rfl (by decide)
    (by decide) rfl (by decide)

/-- C6: for a file-path specifier, input resolution on an unopenable file
is fatal (`exit(-1)` after the diagnostic), while output resolution never
terminates: it returns the freshly constructed file channel — carrying
whatever open-success state the filesystem gave it — and pools it at the
pointer key regardless. -/
theorem file_open_failure_direction (env : Env) (p : Nat) (s : PoolSt) (spec : List Char)
    (h1 : s.mem p = spec)
    (h2 : COMPORT_PFX.isPrefixOf spec = false)
    (h3 : spec ≠ dash)
    (h4 : env.canOpenIn spec = false) :
    (spec2istream env p false s).1 = Res.fatal (-1) ∧
    (spec2istream env p false s).2.errlog.head? = some notFoundMsg ∧
    (spec2ostream env p false s).1 =
      Res.ok (Channel.fileOut spec (env.canOpenOut spec) s.nextId) ∧
    poolFind (spec2ostream env p false s).2.pool p =
      some (Channel.fileOut spec (env.canOpenOut spec) s.nextId) := by
  simp [spec2istream, spec2ostream, h1, h2, h3, fstream_resolve_in, fstream_resolve_out,
    h4, pushErr, poolFind_poolSet_self]

/-- C6, witness: `data.bin` against a filesystem where every open fails:
input resolution is fatal, output resolution still returns and pools the
(failed) file channel. -/
theorem file_open_failure_direction_witness :
    (spec2istream envRefuse 0 false sFile).1 = Res.fatal (-1) ∧
    (spec2istream envRefuse 0 false sFile).2.errlog.head? = some notFoundMsg ∧
    (spec2ostream envRefuse 0 false sFile).1 =
      Res.ok (Channel.fileOut dataBin false 0) ∧
    poolFind (spec2ostream envRefuse 0 false sFile).2.pool 0 =
      some (Channel.fileOut dataBin false 0) :=
  file_open_failure_direction envRefuse 0 sFile dataBin rfl (by decide) (by decide) rfl

/-- C7: resolving the token `-` with force_fstream false returns the
process standard input (input direction) or standard output (output
direction) and leaves the pool, the string memory and the allocation
counter completely unchanged, for every prior pool state. -/
theorem dash_resolves_std_streams (env : Env) (p : Nat) (s : PoolSt)
    (h : s.mem p = dash) :
    (spec2istream env p false s).1 = Res.ok Channel.stdIn ∧
    (spec2istream env p false s).2.pool = s.pool ∧
    (spec2istream env p false s).2.mem = s.mem ∧
    (spec2istream env p false s).2.nextId = s.nextId ∧
    (spec2ostream env p false s).1 = Res.ok Channel.stdOut ∧
    (spec2ostream env p false s).2.pool = s.pool ∧
    (spec2ostream env p false s).2.mem = s.mem ∧
    (spec2ostream env p false s).2.nextId = s.nextId := by
  simp [spec2istream, spec2ostream, h, pushErr]

/-- C7, witness: the token `-` at address 3, after prior pool activity for
an unrelated serial specifier. -/
theorem dash_resolves_std_streams_witness :
    (spec2istream envAccept 3 false sDash).1 = Res.ok Channel.stdIn ∧
    (spec2istream envAccept 3 false sDash).2.pool = sDash.pool ∧
    (spec2istream envAccept 3 false sDash).2.mem = sDash.mem ∧
    (spec2istream envAccept 3 false sDash).2.nextId = sDash.nextId ∧
    (spec2ostream envAccept 3 false sDash).1 = Res.ok Channel.stdOut ∧
    (spec2ostream envAccept 3 false sDash).2.pool = sDash.pool ∧
    (spec2ostream envAccept 3 false sDash).2.mem = sDash.mem ∧
    (spec2ostream envAccept 3 false sDash).2.nextId = sDash.nextId :=
  dash_resolves_std_streams envAccept 3 sDash rfl

/-- C8: the encoder is a pure function of its time stamp and the nine
accessor values it reads (longitude, latitude, height, the three velocity
components, heading, pitch theta, roll phi): two views agreeing on those
nine values — they may differ on `euler_psi` and `azimuth`, which are
never read — encode to identical 32-byte buffers. -/
theorem encode_N0_deterministic (itow1 itow2 : ℚ) (nav1 nav2 : NAVData)
    (ht : itow1 = itow2)
    (hlon : nav1.longitude = nav2.longitude)
    (hlat : nav1.latitude = nav2.latitude)
    (hh : nav1.height = nav2.height)
    (hvn : nav1.v_north = nav2.v_north)
    (hve : nav1.v_east = nav2.v_east)
    (hvd : nav1.v_down = nav2.v_down)
    (hpsi : nav1.heading = nav2.heading)
    (hth : nav1.euler_theta = nav2.euler_theta)
    (hphi : nav1.euler_phi = nav2.euler_phi) :
    encode_N0 itow1 nav1 = encode_N0 itow2 nav2 := by
  simp only [encode_N0, ht, hlon, hlat, hh, hvn, hve, hvd, hpsi, hth, hphi]

/-- C8, witness: two views equal on the nine read accessors but different
on `euler_psi` and `azimuth` encode to the same buffer. -/
theorem encode_N0_deterministic_witness :
    encode_N0 0 (NAVData.mk 0 0 0 0 0 0 0 0 0 5 7) =
      encode_N0 0 (NAVData.mk 0 0 0 0 0 0 0 0 0 11 13) ∧
    NAVData.mk 0 0 0 0 0 0 0 0 0 5 7 ≠ NAVData.mk 0 0 0 0 0 0 0 0 0 11 13 :=
  ⟨encode_N0_deterministic 0 0 (NAVData.mk 0 0 0 0 0 0 0 0 0 5 7)
      (NAVData.mk 0 0 0 0 0 0 0 0 0 11 13) rfl rfl rfl rfl rfl rfl rfl rfl rfl rfl,
    by simp⟩

/-- C9: resolving a serial specifier carrying a `:baud` suffix overwrites
the `':'` with a terminator in the caller's buffer: after the call (in
either direction, whatever the pool held and whether or not it was fatal)
the string at the argument's address is the bare device name. -/
theorem serial_colon_mutates_arg (env : Env) (p : Nat) (s : PoolSt) (name rest : List Char)
    (h1 : s.mem p = name ++ ':' :: rest)
    (h2 : COMPORT_PFX.isPrefixOf (name ++ ':' :: rest) = true)
    (h3 : ':' ∉ name) :
    (spec2istream env p false s).2.mem p = name ∧
    (spec2ostream env p false s).2.mem p = name := by
  have hd := comport_ne_dash _ h2
  have ht := takeWhile_append_colon name rest h3
  have hc : ':' ∈ name ++ ':' :: rest := by simp
  refine ⟨?_, ?_⟩ <;>
  · simp only [spec2istream, spec2ostream, h1, h2, hd, if_false, if_true,
      comport_resolve, hc, ht, pushErr]
    split
    · simp
    · split <;> rename_i s4 heq <;>
        simp only [set_baudrate, pushErr] at heq <;>
        split at heq <;> injection heq with hb hs <;> subst hs <;> simp

/-- C9, witness: after resolving `/dev/ttyS0:57600` at address 0 the string
there reads `/dev/ttyS0`. -/
theorem serial_colon_mutates_arg_witness :
    (spec2istream envAccept 0 false sComBaud).2.mem 0 = ttyS0 ∧
    (spec2ostream envAccept 0 false sComBaud).2.mem 0 = ttyS0 :=
  serial_colon_mutates_arg envAccept 0 sComBaud ttyS0 baud57600 rfl (by decide) (by decide)

/-- C10: the pool is keyed by the raw pointer value: two distinct addresses
holding the same serial specifier text are distinct keys, so resolving one
and then the other constructs two distinct channels (allocation stamps
`s.nextId` and `s.nextId + 1`) and the pool afterwards holds one channel
under each pointer. -/
theorem pool_keyed_by_pointer (env : Env) (p1 p2 : Nat) (s : PoolSt) (spec : List Char)
    (hne : p1 ≠ p2)
    (h1 : s.mem p1 = spec) (h2 : s.mem p2 = spec)
    (h3 : COMPORT_PFX.isPrefixOf spec = true)
    (h4 : ':' ∉ spec)
    (h5 : poolFind s.pool p1 = none) (h6 : poolFind s.pool p2 = none) :
    (spec2istream env p1 false s).1 = Res.ok (Channel.comport spec s.nextId) ∧
    (spec2istream env p2 false (spec2istream env p1 false s).2).1 =
      Res.ok (Channel.comport spec (s.nextId + 1)) ∧
    (spec2istream env p1 false s).1 ≠
      (spec2istream env p2 false (spec2istream env p1 false s).2).1 ∧
    poolFind (spec2istream env p2 false (spec2istream env p1 false s).2).2.pool p1 =
      some (Channel.comport spec s.nextId) ∧
    poolFind (spec2istream env p2 false (spec2istream env p1 false s).2).2.pool p2 =
      some (Channel.comport spec (s.nextId + 1)) := by
  have hd := comport_ne_dash _ h3
  have ht := takeWhile_no_colon spec h4
  have hfirst : spec2istream env p1 false s =
      (Res.ok (Channel.comport spec s.nextId),
        { pool := poolSet s.pool p1 (Channel.comport spec s.nextId),
          mem := s.mem, nextId := s.nextId + 1,
          errlog := spec :: s.errlog }) := by
    simp [spec2istream, h1, h3, hd, comport_resolve, h4, ht, pushErr, h5]
  have hfind2 : poolFind (poolSet s.pool p1 (Channel.comport spec s.nextId)) p2 = none := by
    rw [poolFind_poolSet_ne _ _ _ _ (Ne.symm hne)]
    exact h6
  have hsecond : spec2istream env p2 false (spec2istream env p1 false s).2 =
      (Res.ok (Channel.comport spec (s.nextId + 1)),
        { pool := poolSet (poolSet s.pool p1 (Channel.comport spec s.nextId)) p2
            (Channel.comport spec (s.nextId + 1)),
          mem := s.mem, nextId := s.nextId + 2,
          errlog := spec :: spec :: s.errlog }) := by
    rw [hfirst]
    simp [spec2istream, h2, h3, hd, comport_resolve, h4, ht, pushErr, hfind2]
  refine ⟨by rw [hfirst], by rw [hsecond], ?_, ?_, ?_⟩
  · rw [hsecond, hfirst]
    simp
  · rw [hsecond]
    rw [poolFind_poolSet_ne _ _ _ _ hne, poolFind_poolSet_self]
  · rw [hsecond]
    rw [poolFind_poolSet_self]

/-- C10, witness: `/dev/ttyS0` at the two distinct addresses 0 and 1 of a
fresh pool yields two distinct channels, one pooled under each pointer. -/
theorem pool_keyed_by_pointer_witness :
    (spec2istream envAccept 0 false sCom).1 = Res.ok (Channel.comport ttyS0 0) ∧
    (spec2istream envAccept 1 false (spec2istream envAccept 0 false sCom).2).1 =
      Res.ok (Channel.comport ttyS0 1) ∧
    (spec2istream envAccept 0 false sCom).1 ≠
      (spec2istream envAccept 1 false (spec2istream envAccept 0 false sCom).2).1 ∧
    poolFind (spec2istream envAccept 1 false (spec2istream envAccept 0 false sCom).2).2.pool 0 =
      some (Channel.comport ttyS0 0) ∧
    poolFind (spec2istream envAccept 1 false (spec2istream envAccept 0 false sCom).2).2.pool 1 =
      some (Channel.comport ttyS0 1) :=
  pool_keyed_by_pointer envAccept 0 1 sCom ttyS0 (by decide) rfl rfl (by decide)
    (by decide) rfl rfl

end NinjaScan
